import Mathlib

/-!
Verification of the GPTQ/AWQ → Marlin weight-repacking pipeline
(`server/text_generation_server/layers/marlin/gptq.py`).

Tensors are modelled shallowly: a dtype tag, a (row-major) shape, and a
flat list of integer payload values.  Floating-point tensors (scales) are
never computed on numerically, so their payload is carried opaquely in the
same representation.  The opaque GPU-kernel-library primitives
(`awq_marlin_repack`, `gptq_marlin_repack`, `unpack_cols`,
`marlin_zero_points`, `permute_scales`) are parameters of the embedding:
every theorem quantifies over their behaviour unless stated otherwise.
Python exceptions are modelled with `Except`.
-/

/-- Torch dtypes that occur in this module. -/
inductive DType where
  | int32
  | int64
  | float16
  | bfloat16
  | float32
  deriving DecidableEq, Repr

/-- A torch tensor: dtype tag, row-major shape, flattened payload. -/
structure Tensor where
  dtype : DType
  shape : List Nat
  data : List Int
  deriving DecidableEq, Repr

/-- `torch.empty(0, dtype=torch.int)`: the empty int32 sentinel tensor. -/
def emptyIntTensor : Tensor := ⟨DType.int32, [0], []⟩

/-- An optional tensor, with the empty int32 sentinel standing for `None`
(the `if qzeros is None` defaulting step of the orchestrator). -/
def optOrEmpty (t : Option Tensor) : Tensor :=
  match t with
  | some z => z
  | none => emptyIntTensor

/-- Every error the repacking pipeline can raise, one constructor per
`raise` site (plus the storage-lookup error of the weight loader). -/
inductive Err where
  | unsupportedBits (bits : Int)
  | unsupportedGroupSize (groupsize : Int)
  | asymmetricUnsupported
  | notDivisible (in_features groupsize : Int)
  | zpBitsUnsupported (num_bits : Int)
  | assertionFailed
  | tensorMissing (name : String)
  | cannotLoadQuantized (quantize : String)
  | invalidShape (in_features out_features : Int)
  deriving DecidableEq, Repr

/-! ### Stable argsort (embedding of `torch.argsort` / `numpy.argsort`) -/

/-- Comparison on (value, original index) pairs by value only; used with a
stable sort this realises argsort. -/
def pairLeFst (a b : Int × Nat) : Prop := a.1 ≤ b.1

instance : DecidableRel pairLeFst := fun a b => Int.decLe a.1 b.1

instance : IsTotal (Int × Nat) pairLeFst := ⟨fun a b => Int.le_total a.1 b.1⟩

instance : IsTrans (Int × Nat) pairLeFst := ⟨fun _ _ _ => Int.le_trans⟩

/-- The (value, index) pairs of a list. -/
def idxPairs (l : List Int) : List (Int × Nat) :=
  (List.range l.length).map (fun i => (l.getD i 0, i))

/-- Stable argsort of an integer list: the indices of the elements in
ascending value order, ties broken by original position. -/
def argsortInt (l : List Int) : List Nat :=
  ((idxPairs l).insertionSort pairLeFst).map (fun p => p.2)

theorem mem_insertionSort_idxPairs {l : List Int} {p : Int × Nat}
    (hp : p ∈ (idxPairs l).insertionSort pairLeFst) : p.1 = l.getD p.2 0 := by
  have hmem : p ∈ idxPairs l :=
    (List.perm_insertionSort pairLeFst (idxPairs l)).mem_iff.mp hp
  rcases List.mem_map.mp hmem with ⟨i, _, hi⟩
  simp [← hi]

/-- Selecting a list's elements in argsort order yields a non-decreasing
sequence. -/
theorem argsort_select_sorted (l : List Int) :
    ((argsortInt l).map (fun i => l.getD i 0)).Sorted (· ≤ ·) := by
  unfold argsortInt
  rw [List.map_map]
  have hcongr :
      ((idxPairs l).insertionSort pairLeFst).map
          ((fun i => l.getD i 0) ∘ (fun p : Int × Nat => p.2)) =
        ((idxPairs l).insertionSort pairLeFst).map (fun p : Int × Nat => p.1) := by
    apply List.map_congr_left
    intro p hp
    simpa using (mem_insertionSort_idxPairs hp).symm
  rw [hcongr]
  have hsorted : ((idxPairs l).insertionSort pairLeFst).Sorted pairLeFst :=
    List.sorted_insertionSort pairLeFst (idxPairs l)
  exact List.Pairwise.map (fun p : Int × Nat => p.1) (fun _ _ h => h) hsorted

/-! ### Blockwise permutation (numpy `reshape((-1, L))[:, p].ravel()`) -/

/-- Reorder one row by a permutation: entry `i` of the result is
`row[p[i]]`. -/
def permuteRow (p : List Nat) (row : List Int) : List Int :=
  p.map (fun i => row.getD i 0)

/-- Apply a permutation to each consecutive block of `p.length` values of a
flat list: `reshape((-1, len(p)))[:, p].ravel()`. -/
def applyBlockPerm (p : List Nat) (flat : List Int) : List Int :=
  ((flat.toChunks p.length).map (permuteRow p)).flatten

/-! ### Opaque GPU-kernel-library primitives -/

/-- The boundary primitives of the kernel library (§6 of the spec): their
bit-level layouts are external, so the embedding is parameterised over
them. -/
structure MarlinPrims where
  awqRepack : Tensor → Int → Int → Int → Tensor
  gptqRepack : Tensor → Tensor → Int → Int → Int → Tensor
  unpackCols : Tensor → Int → Int → Int → Tensor
  marlinZeroPoints : Tensor → Int → Int → Int → Tensor
  permuteScales : Tensor → Tensor

/-! ### Zero-point re-interleaver (`awq_to_marlin_zero_points`) -/

/-- The fixed AWQ sub-word interleave order for 4-bit values. -/
def awqInterleave4 : List Nat := [0, 2, 4, 6, 1, 3, 5, 7]

/-- The fixed AWQ sub-word interleave order for 8-bit values. -/
def awqInterleave8 : List Nat := [0, 2, 1, 3]

/-- `numpy.argsort` over a list of naturals (all inputs here are
permutations, so tie order is irrelevant). -/
def argsortNat (l : List Nat) : List Nat :=
  argsortInt (l.map Int.ofNat)

/-- Embedding of `awq_to_marlin_zero_points`: unpack, undo the AWQ
interleave via `argsort` of the interleave order, reshape back to
`(groups, out_features)`, repack to the Marlin layout.  Unsupported
bit-widths raise. -/
def awq_to_marlin_zero_points (prims : MarlinPrims) (q_zp_packed : Tensor)
    (size_k size_n : Int) (num_bits : Int) : Except Err Tensor :=
  let q_zp := prims.unpackCols q_zp_packed num_bits size_k size_n
  match (if num_bits = 4 then some (argsortNat awqInterleave4)
         else if num_bits = 8 then some (argsortNat awqInterleave8)
         else none) with
  | none => .error (.zpBitsUnsupported num_bits)
  | some undo_interleave =>
    let d := applyBlockPerm undo_interleave q_zp.data
    let q_zp2 : Tensor := ⟨q_zp.dtype, [d.length / size_n.toNat, size_n.toNat], d⟩
    .ok (prims.marlinZeroPoints q_zp2 size_k size_n num_bits)

/-! ### The canonical weight and its construction-time invariant -/

/-- The repacked GPTQ-Marlin weight (dataclass `GPTQMarlinWeight`). -/
structure GPTQMarlinWeight where
  qweight : Tensor
  qzeros : Tensor
  scales : Tensor
  g_idx : Tensor
  perm : Tensor
  bits : Int
  is_full_k : Bool
  deriving DecidableEq, Repr

/-- The dtype checks of `GPTQMarlinWeight.__post_init__`. -/
def marlinDtypeOk (qweight scales g_idx perm : Tensor) : Prop :=
  qweight.dtype = DType.int32 ∧
  (scales.dtype = DType.float16 ∨ scales.dtype = DType.bfloat16) ∧
  g_idx.dtype = DType.int32 ∧
  perm.dtype = DType.int32

instance (qweight scales g_idx perm : Tensor) :
    Decidable (marlinDtypeOk qweight scales g_idx perm) := by
  unfold marlinDtypeOk; infer_instance

/-- Constructing a `GPTQMarlinWeight` runs `__post_init__`: the dtype
asserts must hold, otherwise the construction raises. -/
def GPTQMarlinWeight.make (qweight qzeros scales g_idx perm : Tensor)
    (bits : Int) (is_full_k : Bool) : Except Err GPTQMarlinWeight :=
  if marlinDtypeOk qweight scales g_idx perm then
    .ok ⟨qweight, qzeros, scales, g_idx, perm, bits, is_full_k⟩
  else
    .error .assertionFailed

/-! ### `repack_gptq_for_marlin` -/

def GPTQ_MARLIN_BITS : List Int := [4, 8]

def GPTQ_MARLIN_GROUP_SIZES : List Int := [-1, 32, 64, 128]

/-- `in_features`/`out_features` from the packed shape: AWQ packs along
columns, GPTQ along rows (`weights_per_int = 32 // bits`). -/
def deriveFeatures (qweight : Tensor) (bits : Int) (quant_method : String) :
    Int × Int :=
  let weights_per_int : Int := 32 / bits
  let in0 : Int := Int.ofNat (qweight.shape.getD 0 0)
  let out0 : Int := Int.ofNat (qweight.shape.getD 1 0)
  if quant_method = "awq" then (in0, out0 * weights_per_int)
  else (in0 * weights_per_int, out0)

/-- The channel-permutation step: when a group index is present,
activation-order grouping is declared and the group size is not the
whole-row sentinel, `perm = argsort(g_idx)` and `g_idx := g_idx[perm]`;
otherwise both are the empty sentinel. -/
def channelPerm (g_idx : Option Tensor) (desc_act : Bool) (groupsize : Int) :
    Tensor × Tensor :=
  match g_idx with
  | some gi =>
    if desc_act ∧ groupsize ≠ -1 then
      let permIdx := argsortInt gi.data
      let perm : Tensor := ⟨DType.int32, [permIdx.length], permIdx.map Int.ofNat⟩
      let gi2 : Tensor :=
        ⟨gi.dtype, [permIdx.length], permIdx.map (fun i => gi.data.getD i 0)⟩
      (perm, gi2)
    else (emptyIntTensor, emptyIntTensor)
  | none => (emptyIntTensor, emptyIntTensor)

/-- Embedding of `repack_gptq_for_marlin`, parameterised over the opaque
kernel-library primitives. -/
def repack_gptq_for_marlin (prims : MarlinPrims) (qweight : Tensor)
    (qzeros : Option Tensor) (scales : Tensor) (g_idx : Option Tensor)
    (bits : Int) (desc_act : Bool) (groupsize : Int) (quant_method : String)
    (sym : Bool) (sharded_infeatures : Bool) : Except Err GPTQMarlinWeight :=
  if bits ∉ GPTQ_MARLIN_BITS then
    .error (.unsupportedBits bits)
  else if groupsize ∉ GPTQ_MARLIN_GROUP_SIZES then
    .error (.unsupportedGroupSize groupsize)
  else if ¬(sym ∨ quant_method = "awq" ∨ quant_method = "compressed-tensors") then
    .error .asymmetricUnsupported
  else if (deriveFeatures qweight bits quant_method).1 % groupsize ≠ 0 then
    .error (.notDivisible (deriveFeatures qweight bits quant_method).1 groupsize)
  else
    match (if quant_method = "awq" then
        match qzeros with
        | some z =>
          (awq_to_marlin_zero_points prims z
              (((deriveFeatures qweight bits quant_method).1).fdiv groupsize)
              (deriveFeatures qweight bits quant_method).2 bits).map
            (fun z2 =>
              (prims.awqRepack qweight (deriveFeatures qweight bits quant_method).1
                (deriveFeatures qweight bits quant_method).2 bits, some z2))
        | none =>
          .ok (prims.awqRepack qweight (deriveFeatures qweight bits quant_method).1
            (deriveFeatures qweight bits quant_method).2 bits, none)
      else
        .ok (prims.gptqRepack qweight (channelPerm g_idx desc_act groupsize).1
          (deriveFeatures qweight bits quant_method).1
          (deriveFeatures qweight bits quant_method).2 bits, qzeros) :
      Except Err (Tensor × Option Tensor)) with
    | .error e => .error e
    | .ok (repacked, qzeros2) =>
      GPTQMarlinWeight.make repacked
        (optOrEmpty qzeros2)
        (prims.permuteScales scales)
        (channelPerm g_idx desc_act groupsize).2
        (channelPerm g_idx desc_act groupsize).1
        bits
        (!(desc_act && decide (groupsize ≠ -1) && sharded_infeatures))

/-! ### Shape/tile validator (`_check_valid_shape`) -/

def _check_valid_shape (in_features out_features : Int) : Except Err Unit :=
  if (in_features % 128 ≠ 0 ∨ out_features % 64 ≠ 0) ∧
      (in_features % 64 ≠ 0 ∨ out_features % 128 ≠ 0) then
    .error (.invalidShape in_features out_features)
  else
    .ok ()

/-! ### Weight storage and the weights loader -/

/-- Modelled from the spec: tensor lookup by name from persisted storage
(`Weights.get_tensor` / `Weights.get_sharded` live outside this module).
§6: absence of a required tensor surfaces as an error naming the tensor,
not a crash.  Full-tensor and sharded lookups are separate views. -/
structure Storage where
  full : String → Option Tensor
  shard : String → Nat → Option Tensor

/-- Modelled from the spec: `Weights.get_tensor`, failing with a
missing-tensor error when the name is absent. -/
def Storage.getTensor (st : Storage) (name : String) : Except Err Tensor :=
  match st.full name with
  | some t => .ok t
  | none => .error (.tensorMissing name)

/-- Modelled from the spec: `Weights.get_sharded` (the slicing itself is an
external storage concern), failing with a missing-tensor error when the
name is absent. -/
def Storage.getSharded (st : Storage) (name : String) (dim : Nat) :
    Except Err Tensor :=
  match st.shard name dim with
  | some t => .ok t
  | none => .error (.tensorMissing name)

/-- Configuration of `GPTQMarlinWeightsLoader`. -/
structure GPTQMarlinWeightsLoader where
  bits : Int
  desc_act : Bool
  groupsize : Int
  quant_method : String
  quantize : String
  sym : Bool

/-- Embedding of `GPTQMarlinWeightsLoader.get_weights`: only the `qweight`
fetch is guarded by `try/except`; the other fetches propagate the storage
error as-is. -/
def GPTQMarlinWeightsLoader.get_weights (l : GPTQMarlinWeightsLoader)
    (prims : MarlinPrims) (st : Storage) (pfx : String) :
    Except Err GPTQMarlinWeight :=
  match st.getTensor (pfx ++ ".qweight") with
  | .error _ => .error (.cannotLoadQuantized l.quantize)
  | .ok qweight =>
    let qzerosE : Except Err (Option Tensor) :=
      if !l.sym then (st.getTensor (pfx ++ ".qzeros")).map some
      else .ok none
    match qzerosE with
    | .error e => .error e
    | .ok qzeros =>
      let gIdxE : Except Err (Option Tensor) :=
        if l.quant_method = "awq" then .ok none
        else (st.getTensor (pfx ++ ".g_idx")).map some
      match gIdxE with
      | .error e => .error e
      | .ok g_idx =>
        match st.getTensor (pfx ++ ".scales") with
        | .error e => .error e
        | .ok scales =>
          repack_gptq_for_marlin prims qweight qzeros scales g_idx l.bits
            l.desc_act l.groupsize l.quant_method l.sym false

/-- Embedding of `GPTQMarlinWeightsLoader.get_weights_row`: `qweight` is
fetched row-sharded under a `try/except`; zero-points, group index and
scales follow the sharding rules of the source, unguarded. -/
def GPTQMarlinWeightsLoader.get_weights_row (l : GPTQMarlinWeightsLoader)
    (prims : MarlinPrims) (st : Storage) (processGroupSize : Nat)
    (pfx : String) : Except Err GPTQMarlinWeight :=
  match st.getSharded (pfx ++ ".qweight") 0 with
  | .error _ => .error (.cannotLoadQuantized l.quantize)
  | .ok qweight =>
    let qzerosE : Except Err (Option Tensor) :=
      if !l.sym then
        if l.desc_act || l.groupsize == -1 then
          (st.getTensor (pfx ++ ".qzeros")).map some
        else
          (st.getSharded (pfx ++ ".qzeros") 0).map some
      else .ok none
    match qzerosE with
    | .error e => .error e
    | .ok qzeros =>
      let gIdxE : Except Err (Option Tensor) :=
        if l.quant_method = "awq" then .ok none
        else (st.getSharded (pfx ++ ".g_idx") 0).map some
      match gIdxE with
      | .error e => .error e
      | .ok g_idx =>
        let scalesE : Except Err Tensor :=
          if l.desc_act || l.groupsize == -1 then st.getTensor (pfx ++ ".scales")
          else st.getSharded (pfx ++ ".scales") 0
        match scalesE with
        | .error e => .error e
        | .ok scales =>
          let sharded_in_features := decide (processGroupSize > 1)
          repack_gptq_for_marlin prims qweight qzeros scales g_idx l.bits
            l.desc_act l.groupsize l.quant_method l.sym sharded_in_features

/-! ### Spec-side definitions used to compare against the source -/

/-- Modelled from the spec: the row-packed zero-point path §4.5(e)
describes — run only unpack and canonical repack (no shuffle-undo) on the
zero-point tensor.  The source has no such code path; this definition
exists to state the claim that it does. -/
def rowPackedZeroPointsSpec (prims : MarlinPrims) (q_zp_packed : Tensor)
    (size_k size_n num_bits : Int) : Tensor :=
  prims.marlinZeroPoints (prims.unpackCols q_zp_packed num_bits size_k size_n)
    size_k size_n num_bits

/-- The inverse of a permutation given as a list: entry `i` is the position
at which `i` occurs in `p`. -/
def invPerm (p : List Nat) : List Nat :=
  (List.range p.length).map (fun i => p.indexOf i)

/-! ### Concrete instantiations for witnesses and counterexamples -/

/-- Concrete primitives for evaluating the pipeline on test inputs: the
weight repacks and the scale permutation pass their input through, the
zero-point repack shifts every value by one (so that repack ∘ unpack is
visibly not the identity). -/
def testPrims : MarlinPrims where
  awqRepack := fun q _ _ _ => q
  gptqRepack := fun q _ _ _ _ => q
  unpackCols := fun t _ _ _ => t
  marlinZeroPoints := fun t _ _ _ => ⟨t.dtype, t.shape, t.data.map (fun v => v + 1)⟩
  permuteScales := fun s => s

/-- A 16×64-word packed test weight (int32), 4-bit row-packed:
`in_features = 128`. -/
def testQweight : Tensor := ⟨DType.int32, [16, 64], []⟩

/-- A float16 scales tensor for the tests. -/
def testScales : Tensor := ⟨DType.float16, [1, 64], []⟩

/-- A packed zero-point test tensor. -/
def testQzeros : Tensor := ⟨DType.int32, [1, 8], [3, 1, 4, 1, 5, 9, 2, 6]⟩

/-- A group-index test tensor with interleaved group ids. -/
def testGidx : Tensor := ⟨DType.int32, [4], [1, 0, 1, 0]⟩

/-! ### Success inversion for the orchestrator -/

/-- A successful `repack_gptq_for_marlin` call pins down the validated
configuration and every assembled field of the result. -/
theorem repack_ok_inv {prims : MarlinPrims} {qweight : Tensor}
    {qzeros : Option Tensor} {scales : Tensor} {g_idx : Option Tensor}
    {bits : Int} {desc_act : Bool} {groupsize : Int} {quant_method : String}
    {sym : Bool} {sharded_infeatures : Bool} {w : GPTQMarlinWeight}
    (hok : repack_gptq_for_marlin prims qweight qzeros scales g_idx bits
      desc_act groupsize quant_method sym sharded_infeatures = .ok w) :
    bits ∈ GPTQ_MARLIN_BITS ∧
    groupsize ∈ GPTQ_MARLIN_GROUP_SIZES ∧
    (sym ∨ quant_method = "awq" ∨ quant_method = "compressed-tensors") ∧
    (deriveFeatures qweight bits quant_method).1 % groupsize = 0 ∧
    w.perm = (channelPerm g_idx desc_act groupsize).1 ∧
    w.g_idx = (channelPerm g_idx desc_act groupsize).2 ∧
    w.bits = bits ∧
    w.is_full_k = !(desc_act && decide (groupsize ≠ -1) && sharded_infeatures) ∧
    w.scales = prims.permuteScales scales ∧
    marlinDtypeOk w.qweight w.scales w.g_idx w.perm ∧
    (quant_method ≠ "awq" →
      w.qweight = prims.gptqRepack qweight (channelPerm g_idx desc_act groupsize).1
        (deriveFeatures qweight bits quant_method).1
        (deriveFeatures qweight bits quant_method).2 bits ∧
      w.qzeros = optOrEmpty qzeros) ∧
    (qzeros = none → w.qzeros = emptyIntTensor) := by
  unfold repack_gptq_for_marlin at hok
  split at hok
  · simp at hok
  split at hok
  · simp at hok
  split at hok
  · simp at hok
  split at hok
  · simp at hok
  rename_i hbits hgs hsym hdiv
  split at hok
  · simp at hok
  rename_i repacked qzeros2 heq
  unfold GPTQMarlinWeight.make at hok
  split at hok
  swap
  · simp at hok
  rename_i hdtype
  injection hok with hw
  subst hw
  refine ⟨not_not.mp hbits, not_not.mp hgs, not_not.mp hsym, not_not.mp hdiv,
    rfl, rfl, rfl, rfl, rfl, hdtype, ?_, ?_⟩
  · intro hm
    rw [if_neg hm] at heq
    injection heq with hpair
    injection hpair with h1 h2
    subst h1
    subst h2
    exact ⟨rfl, rfl⟩
  · intro hz
    by_cases hm : quant_method = "awq"
    · rw [if_pos hm, hz] at heq
      simp only [Except.ok.injEq, Prod.mk.injEq] at heq
      simp [optOrEmpty, ← heq.2]
    · rw [if_neg hm] at heq
      injection heq with hpair
      injection hpair with h1 h2
      subst h2
      simp [optOrEmpty, hz]

/-- The only error the zero-point re-interleaver raises is the
unsupported-bit-width one. -/
theorem awq_zp_error_inv {prims : MarlinPrims} {z : Tensor} {k n b : Int}
    {e : Err} (h : awq_to_marlin_zero_points prims z k n b = .error e) :
    e = .zpBitsUnsupported b := by
  unfold awq_to_marlin_zero_points at h
  split at h
  · injection h with h'
    exact h'.symm
  · simp at h

/-- The only error `GPTQMarlinWeight` construction raises is the dtype
assertion. -/
theorem make_error_inv {qweight qzeros scales g_idx perm : Tensor} {bits : Int}
    {is_full_k : Bool} {e : Err}
    (h : GPTQMarlinWeight.make qweight qzeros scales g_idx perm bits is_full_k
      = .error e) : e = .assertionFailed := by
  unfold GPTQMarlinWeight.make at h
  split at h
  · simp at h
  · injection h with h'
    exact h'.symm

/-- Error classification for `repack_gptq_for_marlin`: every failure is one
of the four validation errors (each implying its violated precondition), a
zero-point bit-width error, or the construction-time dtype assertion. -/
theorem repack_error_inv {prims : MarlinPrims} {qweight : Tensor}
    {qzeros : Option Tensor} {scales : Tensor} {g_idx : Option Tensor}
    {bits : Int} {desc_act : Bool} {groupsize : Int} {quant_method : String}
    {sym : Bool} {sharded_infeatures : Bool} {e : Err}
    (h : repack_gptq_for_marlin prims qweight qzeros scales g_idx bits
      desc_act groupsize quant_method sym sharded_infeatures = .error e) :
    (e = .unsupportedBits bits ∧ bits ∉ GPTQ_MARLIN_BITS) ∨
    (e = .unsupportedGroupSize groupsize ∧ bits ∈ GPTQ_MARLIN_BITS ∧
      groupsize ∉ GPTQ_MARLIN_GROUP_SIZES) ∨
    (e = .asymmetricUnsupported ∧ bits ∈ GPTQ_MARLIN_BITS ∧
      groupsize ∈ GPTQ_MARLIN_GROUP_SIZES ∧
      ¬(sym ∨ quant_method = "awq" ∨ quant_method = "compressed-tensors")) ∨
    (e = .notDivisible (deriveFeatures qweight bits quant_method).1 groupsize ∧
      (deriveFeatures qweight bits quant_method).1 % groupsize ≠ 0) ∨
    (e = .zpBitsUnsupported bits ∧ quant_method = "awq") ∨
    e = .assertionFailed := by
  unfold repack_gptq_for_marlin at h
  split at h
  · rename_i hb
    injection h with h'
    exact Or.inl ⟨h'.symm, hb⟩
  split at h
  · rename_i hb hg
    injection h with h'
    exact Or.inr (Or.inl ⟨h'.symm, not_not.mp hb, hg⟩)
  split at h
  · rename_i hb hg hs
    injection h with h'
    exact Or.inr (Or.inr (Or.inl ⟨h'.symm, not_not.mp hb, not_not.mp hg, hs⟩))
  split at h
  · rename_i hd
    injection h with h'
    exact Or.inr (Or.inr (Or.inr (Or.inl ⟨h'.symm, hd⟩)))
  rename_i hb hg hs hd
  split at h
  · rename_i e2 heq
    injection h with h'
    subst h'
    by_cases hm : quant_method = "awq"
    · rw [if_pos hm] at heq
      cases qzeros with
      | some z =>
        simp only [Except.map] at heq
        cases hzp : awq_to_marlin_zero_points prims z
            (((deriveFeatures qweight bits quant_method).1).fdiv groupsize)
            (deriveFeatures qweight bits quant_method).2 bits with
        | error e3 =>
          rw [hzp] at heq
          simp at heq
          subst heq
          exact Or.inr (Or.inr (Or.inr (Or.inr (Or.inl
            ⟨awq_zp_error_inv hzp, hm⟩))))
        | ok z2 =>
          rw [hzp] at heq
          simp at heq
      | none =>
        simp at heq
    · rw [if_neg hm] at heq
      simp at heq
  · rename_i repacked qzeros2 heq
    exact Or.inr (Or.inr (Or.inr (Or.inr (Or.inr (make_error_inv h)))))

/-! ### Claim theorems -/

/-- Claim C8: the shape/tile validator raises exactly when neither tile
configuration divides the shape: it errors iff not ((128 | in and 64 | out)
or (64 | in and 128 | out)); every (128,64)- or (64,128)-divisible shape
passes, and (127,64) fails. -/
theorem check_valid_shape_spec :
    (∀ i o : Int, _check_valid_shape i o = .error (.invalidShape i o) ↔
      ¬((i % 128 = 0 ∧ o % 64 = 0) ∨ (i % 64 = 0 ∧ o % 128 = 0))) ∧
    (∀ i o : Int, ((128 ∣ i ∧ 64 ∣ o) ∨ (64 ∣ i ∧ 128 ∣ o)) →
      _check_valid_shape i o = .ok ()) ∧
    _check_valid_shape 127 64 = .error (.invalidShape 127 64) := by
  refine ⟨?_, ?_, ?_⟩
  · intro i o
    unfold _check_valid_shape
    by_cases hc : (i % 128 ≠ 0 ∨ o % 64 ≠ 0) ∧ (i % 64 ≠ 0 ∨ o % 128 ≠ 0)
    · rw [if_pos hc]
      constructor
      · intro _
        tauto
      · intro _
        rfl
    · rw [if_neg hc]
      constructor
      · intro h
        exact absurd h (by simp)
      · intro h
        exact absurd (by tauto) hc
  · intro i o hdvd
    unfold _check_valid_shape
    rw [if_neg]
    rcases hdvd with ⟨h1, h2⟩ | ⟨h1, h2⟩
    · have e1 : i % 128 = 0 := Int.emod_eq_zero_of_dvd h1
      have e2 : o % 64 = 0 := Int.emod_eq_zero_of_dvd h2
      tauto
    · have e1 : i % 64 = 0 := Int.emod_eq_zero_of_dvd h1
      have e2 : o % 128 = 0 := Int.emod_eq_zero_of_dvd h2
      tauto
  · rfl

/-- Claim C8 witness: a concrete (128,64)-divisible shape passes the
validator. -/
theorem check_valid_shape_spec_witness : _check_valid_shape 256 128 = .ok () :=
  check_valid_shape_spec.2.1 256 128 (Or.inl ⟨⟨2, rfl⟩, ⟨2, rfl⟩⟩)

/-- Claim C6: repacking fails with the unsupported-bit-width error (naming
the bit width) for every bits outside {4, 8}, with the unsupported-group-
size error (naming the group size) for every group size outside
{-1, 32, 64, 128}, and neither of those two errors can arise when both are
drawn from the supported sets. -/
theorem repack_validates_bits_and_groupsize (prims : MarlinPrims)
    (qweight : Tensor) (qzeros : Option Tensor) (scales : Tensor)
    (g_idx : Option Tensor) (bits : Int) (desc_act : Bool) (groupsize : Int)
    (quant_method : String) (sym : Bool) (sharded_infeatures : Bool) :
    (bits ∉ GPTQ_MARLIN_BITS →
      repack_gptq_for_marlin prims qweight qzeros scales g_idx bits desc_act
          groupsize quant_method sym sharded_infeatures =
        .error (.unsupportedBits bits)) ∧
    (bits ∈ GPTQ_MARLIN_BITS → groupsize ∉ GPTQ_MARLIN_GROUP_SIZES →
      repack_gptq_for_marlin prims qweight qzeros scales g_idx bits desc_act
          groupsize quant_method sym sharded_infeatures =
        .error (.unsupportedGroupSize groupsize)) ∧
    (bits ∈ GPTQ_MARLIN_BITS → groupsize ∈ GPTQ_MARLIN_GROUP_SIZES →
      ∀ e, repack_gptq_for_marlin prims qweight qzeros scales g_idx bits
          desc_act groupsize quant_method sym sharded_infeatures = .error e →
        (∀ b, e ≠ .unsupportedBits b) ∧ (∀ g, e ≠ .unsupportedGroupSize g)) := by
  refine ⟨?_, ?_, ?_⟩
  · intro h
    unfold repack_gptq_for_marlin
    rw [if_pos h]
  · intro hb hg
    unfold repack_gptq_for_marlin
    rw [if_neg (not_not_intro hb), if_pos hg]
  · intro hb hg e he
    rcases repack_error_inv he with ⟨he', hb'⟩ | ⟨he', _, hg'⟩ |
      ⟨he', _⟩ | ⟨he', _⟩ | ⟨he', _⟩ | he'
    · exact absurd hb hb'
    · exact absurd hg hg'
    · subst he'
      exact ⟨fun b => by simp, fun g => by simp⟩
    · subst he'
      exact ⟨fun b => by simp, fun g => by simp⟩
    · subst he'
      exact ⟨fun b => by simp, fun g => by simp⟩
    · subst he'
      exact ⟨fun b => by simp, fun g => by simp⟩

/-- Claim C6 witness: 5-bit weights are rejected with the error naming 5,
and a supported pair (4, 128) yields neither validation error. -/
theorem repack_validates_bits_and_groupsize_witness :
    repack_gptq_for_marlin testPrims testQweight none testScales none 5 false
      128 "gptq" true false = .error (.unsupportedBits 5) :=
  (repack_validates_bits_and_groupsize testPrims testQweight none testScales
    none 5 false 128 "gptq" true false).1 (by decide)

/-- Claim C2 (amended): the symmetry gate rejects asymmetric quantization
for every method other than "awq" and "compressed-tensors"; when the input
is symmetric or the method is "awq" the gate never fires. -/
theorem repack_symmetry_gate (prims : MarlinPrims) (qweight : Tensor)
    (qzeros : Option Tensor) (scales : Tensor) (g_idx : Option Tensor)
    (bits : Int) (desc_act : Bool) (groupsize : Int) (quant_method : String)
    (sym : Bool) (sharded_infeatures : Bool) :
    (sym = false → quant_method ≠ "awq" → quant_method ≠ "compressed-tensors" →
      bits ∈ GPTQ_MARLIN_BITS → groupsize ∈ GPTQ_MARLIN_GROUP_SIZES →
      repack_gptq_for_marlin prims qweight qzeros scales g_idx bits desc_act
          groupsize quant_method sym sharded_infeatures =
        .error .asymmetricUnsupported) ∧
    ((sym = true ∨ quant_method = "awq") →
      repack_gptq_for_marlin prims qweight qzeros scales g_idx bits desc_act
          groupsize quant_method sym sharded_infeatures ≠
        .error .asymmetricUnsupported) := by
  constructor
  · intro hsf hna hnc hb hg
    have hcond :
        ¬(sym = true ∨ quant_method = "awq" ∨
          quant_method = "compressed-tensors") := by
      rw [hsf]
      simp [hna, hnc]
    unfold repack_gptq_for_marlin
    rw [if_neg (not_not_intro hb), if_neg (not_not_intro hg), if_pos hcond]
  · intro hor he
    rcases repack_error_inv he with ⟨h', _⟩ | ⟨h', _⟩ | ⟨_, _, _, hns⟩ |
      ⟨h', _⟩ | ⟨h', _⟩ | h'
    · exact absurd h' (by simp)
    · exact absurd h' (by simp)
    · exact hns (hor.imp id Or.inl)
    · exact absurd h' (by simp)
    · exact absurd h' (by simp)
    · exact absurd h' (by simp)

/-- Claim C2 counterexample: an asymmetric (sym = false) request with the
non-awq method "compressed-tensors" is not rejected — the repack succeeds,
contradicting "rejects asymmetric quantization for every method other than
awq". -/
theorem repack_symmetry_gate_counterexample :
    repack_gptq_for_marlin testPrims testQweight (some testQzeros) testScales
      none 4 false 128 "compressed-tensors" false false =
      .ok ⟨testQweight, testQzeros, testScales, emptyIntTensor,
        emptyIntTensor, 4, true⟩ := rfl

/-- Claim C2 witness: a symmetric gptq request does not trip the asymmetric
gate. -/
theorem repack_symmetry_gate_witness :
    repack_gptq_for_marlin testPrims testQweight none testScales none 4 false
      128 "gptq" true false ≠ .error .asymmetricUnsupported :=
  (repack_symmetry_gate testPrims testQweight none testScales none 4 false 128
    "gptq" true false).2 (Or.inl rfl)

/-- Claim C7: in_features is the packed row count times pack_factor 32/bits
for the row-packed method (and the raw row count for the column-packed awq
method); when the validated configuration reaches the divisibility check
and in_features is not divisible by group_size the call fails with the
error naming both values, and with the whole-row sentinel groupsize = -1
the divisibility error can never arise, whatever the input shape. -/
theorem repack_infeatures_divisible (prims : MarlinPrims) (qweight : Tensor)
    (qzeros : Option Tensor) (scales : Tensor) (g_idx : Option Tensor)
    (bits : Int) (desc_act : Bool) (groupsize : Int) (quant_method : String)
    (sym : Bool) (sharded_infeatures : Bool) :
    ((quant_method = "awq" →
      (deriveFeatures qweight bits quant_method).1 =
        Int.ofNat (qweight.shape.getD 0 0)) ∧
     (quant_method ≠ "awq" →
      (deriveFeatures qweight bits quant_method).1 =
        Int.ofNat (qweight.shape.getD 0 0) * (32 / bits))) ∧
    (bits ∈ GPTQ_MARLIN_BITS → groupsize ∈ GPTQ_MARLIN_GROUP_SIZES →
      (sym = true ∨ quant_method = "awq" ∨
        quant_method = "compressed-tensors") →
      (deriveFeatures qweight bits quant_method).1 % groupsize ≠ 0 →
      repack_gptq_for_marlin prims qweight qzeros scales g_idx bits desc_act
          groupsize quant_method sym sharded_infeatures =
        .error (.notDivisible (deriveFeatures qweight bits quant_method).1
          groupsize)) ∧
    (groupsize = -1 →
      ∀ e, repack_gptq_for_marlin prims qweight qzeros scales g_idx bits
          desc_act groupsize quant_method sym sharded_infeatures = .error e →
        ∀ i g, e ≠ .notDivisible i g) := by
  refine ⟨⟨?_, ?_⟩, ?_, ?_⟩
  · intro hm
    simp [deriveFeatures, hm]
  · intro hm
    simp [deriveFeatures, hm]
  · intro hb hg hs hd
    unfold repack_gptq_for_marlin
    rw [if_neg (not_not_intro hb), if_neg (not_not_intro hg),
      if_neg (not_not_intro hs), if_pos hd]
  · intro hgs e he i g
    rcases repack_error_inv he with ⟨h', _⟩ | ⟨h', _⟩ | ⟨h', _⟩ |
      ⟨h', hne⟩ | ⟨h', _⟩ | h'
    · subst h'
      simp
    · subst h'
      simp
    · subst h'
      simp
    · subst hgs
      exact absurd (by simp [Int.emod_neg]) hne
    · subst h'
      simp
    · subst h'
      simp

/-- Claim C7 witness: a 4-bit row-packed weight with 4 packed rows has
in_features = 32, which is not divisible by group size 128, and the call
fails with the error naming 32 and 128. -/
theorem repack_infeatures_divisible_witness :
    repack_gptq_for_marlin testPrims ⟨DType.int32, [4, 64], []⟩ none
      testScales none 4 false 128 "gptq" true false =
      .error (.notDivisible 32 128) :=
  (repack_infeatures_divisible testPrims ⟨DType.int32, [4, 64], []⟩ none
    testScales none 4 false 128 "gptq" true false).2.1 (by decide) (by decide)
    (Or.inl rfl) (by decide)

/-- Claim C5: every successfully repacked weight carries
is_full_k = NOT (desc_act AND groupsize is not the whole-row sentinel AND
the input-feature dimension is sharded). -/
theorem repack_is_full_k (prims : MarlinPrims) (qweight : Tensor)
    (qzeros : Option Tensor) (scales : Tensor) (g_idx : Option Tensor)
    (bits : Int) (desc_act : Bool) (groupsize : Int) (quant_method : String)
    (sym : Bool) (sharded_infeatures : Bool) (w : GPTQMarlinWeight)
    (hok : repack_gptq_for_marlin prims qweight qzeros scales g_idx bits
      desc_act groupsize quant_method sym sharded_infeatures = .ok w) :
    w.is_full_k = true ↔
      ¬(desc_act = true ∧ groupsize ≠ -1 ∧ sharded_infeatures = true) := by
  obtain ⟨-, -, -, -, -, -, -, hfk, -, -, -, -⟩ := repack_ok_inv hok
  rw [hfk]
  cases desc_act <;> cases sharded_infeatures <;>
    by_cases hg : groupsize = -1 <;> simp [hg]

/-- Claim C5 witness: with desc_act, group size 128 and a sharded K
dimension, the repacked weight has is_full_k = false. -/
theorem repack_is_full_k_witness :
    ¬((⟨testQweight, emptyIntTensor, testScales,
        ⟨DType.int32, [4], [0, 0, 1, 1]⟩, ⟨DType.int32, [4], [1, 3, 0, 2]⟩,
        4, false⟩ : GPTQMarlinWeight).is_full_k = true) := by
  intro hfk
  exact ((repack_is_full_k testPrims testQweight none testScales
    (some testGidx) 4 true 128 "gptq" true true _ rfl).mp hfk)
    ⟨rfl, by decide, rfl⟩

/-- Claim C1 (amended): when zero-points are present, the row-packed
(non-awq) path of repack_gptq_for_marlin returns them unchanged — it runs
no unpack/repack transform on them — and when zero-points are absent the
result's qzeros is the empty tensor. -/
theorem repack_rowpacked_zeros (prims : MarlinPrims) (qweight : Tensor)
    (qzeros : Option Tensor) (scales : Tensor) (g_idx : Option Tensor)
    (bits : Int) (desc_act : Bool) (groupsize : Int) (quant_method : String)
    (sym : Bool) (sharded_infeatures : Bool) (w : GPTQMarlinWeight)
    (hok : repack_gptq_for_marlin prims qweight qzeros scales g_idx bits
      desc_act groupsize quant_method sym sharded_infeatures = .ok w) :
    (quant_method ≠ "awq" → ∀ z, qzeros = some z → w.qzeros = z) ∧
    (qzeros = none → w.qzeros = emptyIntTensor) := by
  obtain ⟨-, -, -, -, -, -, -, -, -, -, hrow, hnone⟩ := repack_ok_inv hok
  refine ⟨?_, hnone⟩
  intro hm z hz
  rw [(hrow hm).2, hz]
  rfl

/-- Claim C1 counterexample: a row-packed (gptq) repack with zero-points
present returns them verbatim, which differs from the unpack-then-repack
transform the claim asserts (here instantiated with concrete primitives
whose repack-after-unpack shifts every value). -/
theorem repack_rowpacked_zeros_counterexample :
    repack_gptq_for_marlin testPrims testQweight (some testQzeros) testScales
      none 4 false 128 "gptq" true false =
      .ok ⟨testQweight, testQzeros, testScales, emptyIntTensor,
        emptyIntTensor, 4, true⟩ ∧
    testQzeros ≠ rowPackedZeroPointsSpec testPrims testQzeros 1 64 4 :=
  ⟨rfl, by decide⟩

/-- Claim C1 witness: the row-packed repack above hands back the input
zero-point tensor unchanged. -/
theorem repack_rowpacked_zeros_witness :
    (⟨testQweight, testQzeros, testScales, emptyIntTensor, emptyIntTensor, 4,
      true⟩ : GPTQMarlinWeight).qzeros = testQzeros :=
  (repack_rowpacked_zeros testPrims testQweight (some testQzeros) testScales
    none 4 false 128 "gptq" true false _ rfl).1 (by decide) testQzeros rfl

/-- Claim C3: when a group index is present, activation-order grouping is
declared and the group size is not the whole-row sentinel, the emitted perm
is the stable argsort of g_idx, the emitted g_idx is g_idx gathered
through perm, and the gathered g_idx is non-decreasing; in every other
case perm and g_idx are both the empty sentinel tensor. -/
theorem repack_channel_permutation (prims : MarlinPrims) (qweight : Tensor)
    (qzeros : Option Tensor) (scales : Tensor) (g_idx : Option Tensor)
    (bits : Int) (desc_act : Bool) (groupsize : Int) (quant_method : String)
    (sym : Bool) (sharded_infeatures : Bool) (w : GPTQMarlinWeight)
    (hok : repack_gptq_for_marlin prims qweight qzeros scales g_idx bits
      desc_act groupsize quant_method sym sharded_infeatures = .ok w) :
    (∀ gi, g_idx = some gi → desc_act = true → groupsize ≠ -1 →
      w.perm = ⟨DType.int32, [(argsortInt gi.data).length],
        (argsortInt gi.data).map Int.ofNat⟩ ∧
      w.g_idx = ⟨gi.dtype, [(argsortInt gi.data).length],
        (argsortInt gi.data).map (fun i => gi.data.getD i 0)⟩ ∧
      w.g_idx.data.Sorted (· ≤ ·)) ∧
    ((g_idx = none ∨ desc_act = false ∨ groupsize = -1) →
      w.perm = emptyIntTensor ∧ w.g_idx = emptyIntTensor) := by
  obtain ⟨-, -, -, -, hperm, hgidx, -, -, -, -, -, -⟩ := repack_ok_inv hok
  constructor
  · intro gi hgi hd hgs
    subst hgi
    subst hd
    refine ⟨?_, ?_, ?_⟩
    · rw [hperm]
      simp [channelPerm, hgs]
    · rw [hgidx]
      simp [channelPerm, hgs]
    · rw [hgidx]
      simp only [channelPerm, hgs, ne_eq, not_false_iff, and_true, if_pos]
      exact argsort_select_sorted gi.data
  · rintro (hgi | hd | hgs)
    · subst hgi
      exact ⟨hperm.trans (by simp [channelPerm]),
        hgidx.trans (by simp [channelPerm])⟩
    · subst hd
      cases g_idx with
      | none =>
        exact ⟨hperm.trans (by simp [channelPerm]),
          hgidx.trans (by simp [channelPerm])⟩
      | some gi =>
        exact ⟨hperm.trans (by simp [channelPerm]),
          hgidx.trans (by simp [channelPerm])⟩
    · subst hgs
      cases g_idx with
      | none =>
        exact ⟨hperm.trans (by simp [channelPerm]),
          hgidx.trans (by simp [channelPerm])⟩
      | some gi =>
        exact ⟨hperm.trans (by simp [channelPerm]),
          hgidx.trans (by simp [channelPerm])⟩

/-- Claim C3 witness: repacking with g_idx = [1, 0, 1, 0] under
activation-order grouping emits a non-decreasing gathered group index. -/
theorem repack_channel_permutation_witness :
    ([0, 0, 1, 1] : List Int).Sorted (· ≤ ·) :=
  ((repack_channel_permutation testPrims testQweight none testScales
    (some testGidx) 4 true 128 "gptq" true false
    ⟨testQweight, emptyIntTensor, testScales,
      ⟨DType.int32, [4], [0, 0, 1, 1]⟩, ⟨DType.int32, [4], [1, 3, 0, 2]⟩, 4,
      true⟩ rfl).1 testGidx rfl rfl (by decide)).2.2

/-- Claim C4: the zero-point re-interleaver unpacks, applies the inverse of
the fixed interleave permutation ([0,2,4,6,1,3,5,7] for 4-bit, [0,2,1,3]
for 8-bit) to each consecutive block of 8 (resp. 4) values of the
flattened unpacked matrix, reshapes back to (groups, out_features) rows of
length size_n, and repacks; every other bit width fails with an error. -/
theorem awq_zp_reinterleave (prims : MarlinPrims) (z : Tensor)
    (size_k size_n : Int) :
    (awq_to_marlin_zero_points prims z size_k size_n 4 =
      .ok (prims.marlinZeroPoints
        ⟨(prims.unpackCols z 4 size_k size_n).dtype,
          [(applyBlockPerm (invPerm awqInterleave4)
              (prims.unpackCols z 4 size_k size_n).data).length / size_n.toNat,
            size_n.toNat],
          applyBlockPerm (invPerm awqInterleave4)
            (prims.unpackCols z 4 size_k size_n).data⟩ size_k size_n 4)) ∧
    (awq_to_marlin_zero_points prims z size_k size_n 8 =
      .ok (prims.marlinZeroPoints
        ⟨(prims.unpackCols z 8 size_k size_n).dtype,
          [(applyBlockPerm (invPerm awqInterleave8)
              (prims.unpackCols z 8 size_k size_n).data).length / size_n.toNat,
            size_n.toNat],
          applyBlockPerm (invPerm awqInterleave8)
            (prims.unpackCols z 8 size_k size_n).data⟩ size_k size_n 8)) ∧
    (∀ b : Int, b ≠ 4 → b ≠ 8 →
      awq_to_marlin_zero_points prims z size_k size_n b =
        .error (.zpBitsUnsupported b)) := by
  have h4 : argsortNat awqInterleave4 = invPerm awqInterleave4 := by decide
  have h8 : argsortNat awqInterleave8 = invPerm awqInterleave8 := by decide
  refine ⟨?_, ?_, ?_⟩
  · unfold awq_to_marlin_zero_points
    simp [h4]
  · unfold awq_to_marlin_zero_points
    simp [h8]
  · intro b hb4 hb8
    unfold awq_to_marlin_zero_points
    simp [hb4, hb8]

/-- Claim C4 witness: 5-bit zero points are rejected with the error naming
the bit width. -/
theorem awq_zp_reinterleave_witness :
    awq_to_marlin_zero_points testPrims testQzeros 1 8 5 =
      .error (.zpBitsUnsupported 5) :=
  (awq_zp_reinterleave testPrims testQzeros 1 8).2.2 5 (by decide) (by decide)

/-- Claim C10: every successfully constructed GPTQMarlinWeight satisfies
the __post_init__ dtype invariant (qweight int32, scales float16/bfloat16,
g_idx and perm int32); construction fails on any violating value; and in
particular every successful repack_gptq_for_marlin result satisfies it. -/
theorem gptq_marlin_weight_dtype_invariant (qweight qzeros scales g_idx perm :
    Tensor) (bits : Int) (is_full_k : Bool) (prims : MarlinPrims)
    (qw : Tensor) (qz : Option Tensor) (sc : Tensor) (gx : Option Tensor)
    (b : Int) (da : Bool) (gs : Int) (qm : String) (sy : Bool) (sh : Bool) :
    (∀ w, GPTQMarlinWeight.make qweight qzeros scales g_idx perm bits
        is_full_k = .ok w →
      marlinDtypeOk w.qweight w.scales w.g_idx w.perm) ∧
    (¬marlinDtypeOk qweight scales g_idx perm →
      GPTQMarlinWeight.make qweight qzeros scales g_idx perm bits is_full_k =
        .error .assertionFailed) ∧
    (∀ w, repack_gptq_for_marlin prims qw qz sc gx b da gs qm sy sh = .ok w →
      marlinDtypeOk w.qweight w.scales w.g_idx w.perm) := by
  refine ⟨?_, ?_, ?_⟩
  · intro w hw
    unfold GPTQMarlinWeight.make at hw
    split at hw
    · rename_i h
      injection hw with hw'
      subst hw'
      exact h
    · simp at hw
  · intro h
    unfold GPTQMarlinWeight.make
    rw [if_neg h]
  · intro w hw
    exact (repack_ok_inv hw).2.2.2.2.2.2.2.2.2.1

/-- Claim C10 witness: a concretely constructed weight satisfies the dtype
invariant. -/
theorem gptq_marlin_weight_dtype_invariant_witness :
    marlinDtypeOk testQweight testScales emptyIntTensor emptyIntTensor :=
  (gptq_marlin_weight_dtype_invariant testQweight testQzeros testScales
    emptyIntTensor emptyIntTensor 4 true testPrims testQweight none testScales
    none 4 false 128 "gptq" true false).1
    ⟨testQweight, testQzeros, testScales, emptyIntTensor, emptyIntTensor, 4,
      true⟩ rfl

/-- Claim C9 (amended): in the weight loaders only the qweight fetch is
wrapped with the remediation-hint error ("make sure the model is already
quantized"); a missing scales, qzeros or g_idx tensor surfaces as the
storage layer's missing-tensor error naming that tensor, unwrapped. -/
theorem loader_missing_tensor_errors (l : GPTQMarlinWeightsLoader)
    (prims : MarlinPrims) (st : Storage) (pgs : Nat) (pfx : String) :
    (st.full (pfx ++ ".qweight") = none →
      l.get_weights prims st pfx = .error (.cannotLoadQuantized l.quantize)) ∧
    (st.shard (pfx ++ ".qweight") 0 = none →
      l.get_weights_row prims st pgs pfx =
        .error (.cannotLoadQuantized l.quantize)) ∧
    (∀ qw, st.full (pfx ++ ".qweight") = some qw → l.sym = false →
      st.full (pfx ++ ".qzeros") = none →
      l.get_weights prims st pfx =
        .error (.tensorMissing (pfx ++ ".qzeros"))) ∧
    (∀ qw, st.full (pfx ++ ".qweight") = some qw → l.sym = true →
      l.quant_method ≠ "awq" → st.full (pfx ++ ".g_idx") = none →
      l.get_weights prims st pfx =
        .error (.tensorMissing (pfx ++ ".g_idx"))) ∧
    (∀ qw, st.full (pfx ++ ".qweight") = some qw → l.sym = true →
      l.quant_method = "awq" → st.full (pfx ++ ".scales") = none →
      l.get_weights prims st pfx =
        .error (.tensorMissing (pfx ++ ".scales"))) := by
  refine ⟨?_, ?_, ?_, ?_, ?_⟩
  · intro h
    simp [GPTQMarlinWeightsLoader.get_weights, Storage.getTensor, h]
  · intro h
    simp [GPTQMarlinWeightsLoader.get_weights_row, Storage.getSharded, h]
  · intro qw hqw hsym hz
    simp [GPTQMarlinWeightsLoader.get_weights, Storage.getTensor, hqw, hsym,
      hz, Except.map]
  · intro qw hqw hsym hm hg
    simp [GPTQMarlinWeightsLoader.get_weights, Storage.getTensor, hqw, hsym,
      hm, hg, Except.map]
  · intro qw hqw hsym hm hs
    simp [GPTQMarlinWeightsLoader.get_weights, Storage.getTensor, hqw, hsym,
      hm, hs]

/-- Modelled from the spec: a storage view for prefix `x` holding only the
packed weight tensor; every other lookup is absent. -/
def storeMissingScales : Storage :=
  ⟨fun n => if n = "x.qweight" then some testQweight else none,
    fun _ _ => none⟩

/-- Claim C9 counterexample: with qweight present but scales absent, the
awq/symmetric load fails with the raw missing-tensor error for
"x.scales" — not the remediation-hint error the claim asserts for every
missing tensor. -/
theorem loader_missing_tensor_counterexample :
    GPTQMarlinWeightsLoader.get_weights ⟨4, false, 128, "awq", "awq", true⟩
        testPrims storeMissingScales "x" =
      .error (.tensorMissing "x.scales") ∧
    Err.tensorMissing "x.scales" ≠ Err.cannotLoadQuantized "awq" :=
  ⟨rfl, by decide⟩

/-- Claim C9 witness: a missing qweight is wrapped with the remediation
hint. -/
theorem loader_missing_tensor_errors_witness :
    GPTQMarlinWeightsLoader.get_weights ⟨4, false, 128, "awq", "awq", true⟩
        testPrims ⟨fun _ => none, fun _ _ => none⟩ "x" =
      .error (.cannotLoadQuantized "awq") :=
  (loader_missing_tensor_errors ⟨4, false, 128, "awq", "awq", true⟩ testPrims
    ⟨fun _ => none, fun _ _ => none⟩ 1 "x").1 rfl
